import Mathlib

/-!
Verification development for the pyetherscan client library.

The Python sources are shallowly embedded: pure computations become Lean
functions, raised exceptions become `Except` errors, and lazily mutated
object state becomes explicit state passing.  Machine floats of the
restricted shape the library actually handles (decimal digit strings
converted with `float`) are modelled exactly over `Rat`; the claims under
study only compare two identically converted values, so rounding is
immaterial.  External collaborators (the `requests` transport, the JSON
decoder of the standard library, the `retrying` decorator) are modelled
as oracles or, for `retrying`, by the documented semantics of the
configuration constants the repository passes to it.
-/

namespace Pyetherscan

/-- The closed error taxonomy of `error.py` (mirrored in `lib/errors.py`):
thirteen kinds, all subclasses of `EtherscanBaseError`. -/
inductive ErrorKind
  | initializationE
  | connectionE
  | requestE
  | dataE
  | addressE
  | contractE
  | transactionE
  | blockE
  | eventLogE
  | gethProxyE
  | websocketE
  | tokenE
  | statsE
  deriving DecidableEq, Repr

/-- A Python exception as observed by the client code: either one of the
Etherscan taxonomy kinds carrying its message, or one of the builtin
exceptions that the embedded code paths can raise. -/
inductive PyError
  | etherscan (kind : ErrorKind) (msg : String)
  | jsonDecodeError
  | typeError
  | valueError
  | indexError
  | keyError
  | attributeError
  deriving DecidableEq, Repr

/-- `isinstance(e, error.EtherscanDataError)`. -/
def isEtherscanDataError : PyError → Bool
  | .etherscan .dataE _ => true
  | _ => false

/-- `isinstance(e, error.EtherscanRequestError)`. -/
def isEtherscanRequestError : PyError → Bool
  | .etherscan .requestE _ => true
  | _ => false

/-- Whether an exception belongs to the Etherscan taxonomy at all
(`isinstance(e, error.EtherscanBaseError)`). -/
def isEtherscanBaseError : PyError → Bool
  | .etherscan _ _ => true
  | _ => false

/-- `client.check_exception_for_retry`: retry on everything except
`EtherscanDataError` and `EtherscanRequestError`. -/
def check_exception_for_retry (e : PyError) : Bool :=
  !(isEtherscanDataError e) && !(isEtherscanRequestError e)

/-- `RETRY_KWARGS['wait_exponential_multiplier']` in milliseconds. -/
def wait_exponential_multiplier : Nat := 1000

/-- `RETRY_KWARGS['wait_exponential_max']` in milliseconds. -/
def wait_exponential_max : Nat := 10000

/-- `RETRY_KWARGS['stop_max_attempt_number']`. -/
def stop_max_attempt_number : Nat := 5

/-- The wait in milliseconds after the (k+1)-st failed attempt, as the
spec describes the configured exponential backoff: starting at the
1000 ms multiplier and doubling, capped at 10000 ms. -/
def backoffMs (k : Nat) : Nat :=
  min (wait_exponential_multiplier * 2 ^ k) wait_exponential_max

/-- The retry loop of the external `retrying` decorator as configured by
`RETRY_KWARGS` (the decorator itself is an external collaborator; its
semantics here follow the spec: at most `stop_max_attempt_number`
attempts, retry only when `check_exception_for_retry` accepts the raised
error, exponential backoff between attempts, last error propagated).
The transport `t` maps the attempt index to that attempt's outcome; the
result also records the list of backoff waits performed. -/
def retryGo (t : Nat → Except PyError α) : Nat → Nat → Except PyError α × List Nat
  | 0, i => (t i, [])
  | fuel + 1, i =>
    match t i with
    | .ok a => (.ok a, [])
    | .error e =>
      if fuel = 0 then (.error e, [])
      else if check_exception_for_retry e then
        let r := retryGo t fuel (i + 1)
        (r.1, backoffMs i :: r.2)
      else (.error e, [])

/-- The outcome of `Client._get_request` over a given transport: the
retry loop started with the full attempt budget. -/
def get_request (t : Nat → Except PyError α) : Except PyError α :=
  (retryGo t stop_max_attempt_number 0).1

/-- The backoff waits performed by `Client._get_request` over a given
transport. -/
def get_request_waits (t : Nat → Except PyError α) : List Nat :=
  (retryGo t stop_max_attempt_number 0).2

/-- The number of attempts `Client._get_request` makes over a given
transport: one more than the number of backoff waits. -/
def attemptsUsed (t : Nat → Except PyError α) : Nat :=
  (get_request_waits t).length + 1

/-- A JSON value as produced by the standard library decoder. -/
inductive Json
  | str (s : String)
  | num (q : ℚ)
  | jbool (b : Bool)
  | null
  | arr (xs : List Json)
  | obj (fields : List (String × Json))

/-- Python `dict.get(key)` on a decoded JSON object: the first binding of
the key, or `None` when absent.  Decoded Python dicts bind each key once. -/
def lookupField : List (String × Json) → String → Option Json
  | [], _ => none
  | (k, v) :: rest, key => if k = key then some v else lookupField rest key

/-- `self.etherscan_response.get(key)` when the decoded envelope is a
dict; any other decoded value has no `get` attribute. -/
def jsonGet : Json → String → Option Json
  | .obj fields, key => lookupField fields key
  | _, _ => none

/-- The body of a raw HTTP response as the constructor observes it.
`missing` models an argument whose `text` attribute access raises
`AttributeError`; `invalid` models a body the standard JSON decoder
rejects (`json.loads` raises `JSONDecodeError`); `valid j` models a body
decoding to `j`. -/
inductive RawText
  | missing
  | invalid
  | valid (j : Json)

/-- A raw HTTP response as passed to the response constructors. -/
structure RawResponse where
  status_code : Nat
  text : RawText

/-- The attributes `EtherscanResponse.__init__` sets before dispatching
to `parse_response`. -/
structure BaseResponse where
  etherscan_response : Json
  response_status_code : Nat
  status : Option Json
  message : Option Json

/-- The error raised for an HTTP 403 status. -/
def rateLimitError : PyError := .etherscan .requestE "Rate limit reached."

/-- `EtherscanResponse.__init__`: raise `EtherscanRequestError` on
status 403; decode the body, turning only an `AttributeError` into
`EtherscanRequestError` (a `JSONDecodeError` escapes untouched); then
read `status` and `message` off the decoded dict. -/
def etherscanResponseBase (resp : RawResponse) : Except PyError BaseResponse :=
  if resp.status_code = 403 then .error rateLimitError
  else
    match resp.text with
    | .missing => .error (.etherscan .requestE "Invalid request.")
    | .invalid => .error .jsonDecodeError
    | .valid j =>
      match j with
      | .obj fields =>
        .ok { etherscan_response := .obj fields,
              response_status_code := resp.status_code,
              status := lookupField fields "status",
              message := lookupField fields "message" }
      | _ => .error .attributeError

/-- Digit-string accumulator for the decimal parse behind `float`. -/
def digitsToNatAux : List Char → Nat → Option Nat
  | [], acc => some acc
  | c :: cs, acc =>
    if c.isDigit then digitsToNatAux cs (acc * 10 + (c.toNat - 48)) else none

/-- CPython `float` applied to an unsigned decimal integer string,
modelled exactly over `Rat` (the claims under study only compare values
obtained by the identical conversion, so the common rounding cancels);
a string that is not of that shape raises `ValueError`. -/
def pyFloatOfString (s : String) : Option ℚ :=
  match s.data with
  | [] => none
  | c :: cs => (digitsToNatAux (c :: cs) 0).map (fun n => (n : ℚ))

/-- Python `float(x)` for the values a decoded envelope field can hold:
numeric strings parse, numbers and booleans convert, everything else
(including `None` for an absent key) raises `TypeError`. -/
def pyFloat : Option Json → Except PyError ℚ
  | some (.str s) =>
    match pyFloatOfString s with
    | some q => .ok q
    | none => .error .valueError
  | some (.num q) => .ok q
  | some (.jbool b) => .ok (if b then 1 else 0)
  | _ => .error .typeError

/-- Python `x[0]` for the values a decoded envelope field can hold:
first element of a non-empty list, `IndexError` on an empty list or
string, `KeyError` on a (string-keyed) dict, `TypeError` otherwise
(including `None` for an absent key). -/
def pyIndexZero : Option Json → Except PyError Json
  | some (.arr []) => .error .indexError
  | some (.arr (x :: _)) => .ok x
  | some (.str s) =>
    match s.data with
    | [] => .error .indexError
    | c :: _ => .ok (.str (String.mk [c]))
  | some (.obj _) => .error .keyError
  | _ => .error .typeError

/-- `response.SingleAddressBalanceResponse`. -/
structure SingleAddressBalanceResponse extends BaseResponse where
  balance : ℚ

/-- `SingleAddressBalanceResponse(resp)`: the base constructor followed
by `parse_response`, which sets `balance = float(envelope.get('result'))`. -/
def SingleAddressBalanceResponse.init (resp : RawResponse) :
    Except PyError SingleAddressBalanceResponse :=
  match etherscanResponseBase resp with
  | .error e => .error e
  | .ok base =>
    match pyFloat (jsonGet base.etherscan_response "result") with
    | .ok q => .ok { toBaseResponse := base, balance := q }
    | .error e => .error e

/-- `response.MultiAddressBalanceResponse`. -/
structure MultiAddressBalanceResponse extends BaseResponse where
  balances : List (Option Json × ℚ)

/-- The dict comprehension of `MultiAddressBalanceResponse.parse_response`
over the entries of the `result` list, in iteration order: each entry
must be a dict (anything else has no `get` attribute) and its `balance`
field must convert with `float`. -/
def parseBalancesList : List Json → Except PyError (List (Option Json × ℚ))
  | [] => .ok []
  | .obj fs :: rest =>
    match pyFloat (lookupField fs "balance") with
    | .error e => .error e
    | .ok q =>
      match parseBalancesList rest with
      | .error e => .error e
      | .ok l => .ok ((lookupField fs "account", q) :: l)
  | _ :: _ => .error .attributeError

/-- `MultiAddressBalanceResponse(resp)`: iterating a non-list `result`
raises (`TypeError` for scalars and `None`; the first element of a
non-empty string or dict iteration has no `get` attribute, while empty
ones produce an empty mapping). -/
def MultiAddressBalanceResponse.init (resp : RawResponse) :
    Except PyError MultiAddressBalanceResponse :=
  match etherscanResponseBase resp with
  | .error e => .error e
  | .ok base =>
    match jsonGet base.etherscan_response "result" with
    | some (.arr ms) =>
      match parseBalancesList ms with
      | .ok l => .ok { toBaseResponse := base, balances := l }
      | .error e => .error e
    | some (.str s) =>
      if s.data = [] then .ok { toBaseResponse := base, balances := [] }
      else .error .attributeError
    | some (.obj []) => .ok { toBaseResponse := base, balances := [] }
    | some (.obj (_ :: _)) => .error .attributeError
    | _ => .error .typeError

/-- `response.TransactionsByAddressResponse`. -/
structure TransactionsByAddressResponse extends BaseResponse where
  transactions : Option Json

/-- `TransactionsByAddressResponse(resp)`: `parse_response` stores the
raw `result` value unchanged. -/
def TransactionsByAddressResponse.init (resp : RawResponse) :
    Except PyError TransactionsByAddressResponse :=
  match etherscanResponseBase resp with
  | .error e => .error e
  | .ok base =>
    .ok { toBaseResponse := base,
          transactions := jsonGet base.etherscan_response "result" }

/-- `response.TransactionsByHashResponse`. -/
structure TransactionsByHashResponse extends BaseResponse where
  transaction : Json

/-- `TransactionsByHashResponse(resp)`: `parse_response` stores
`envelope.get('result')[0]`, an unguarded index. -/
def TransactionsByHashResponse.init (resp : RawResponse) :
    Except PyError TransactionsByHashResponse :=
  match etherscanResponseBase resp with
  | .error e => .error e
  | .ok base =>
    match pyIndexZero (jsonGet base.etherscan_response "result") with
    | .ok x => .ok { toBaseResponse := base, transaction := x }
    | .error e => .error e

/-- `response.BlocksMinedByAddressResponse`. -/
structure BlocksMinedByAddressResponse extends BaseResponse where
  blocks : Option Json

/-- `BlocksMinedByAddressResponse(resp)`: stores the raw `result`. -/
def BlocksMinedByAddressResponse.init (resp : RawResponse) :
    Except PyError BlocksMinedByAddressResponse :=
  match etherscanResponseBase resp with
  | .error e => .error e
  | .ok base =>
    .ok { toBaseResponse := base,
          blocks := jsonGet base.etherscan_response "result" }

/-- `response.ContractABIByAddressResponse`. -/
structure ContractABIByAddressResponse extends BaseResponse where
  contract_abi : Option Json

/-- `ContractABIByAddressResponse(resp)`: stores the raw `result`. -/
def ContractABIByAddressResponse.init (resp : RawResponse) :
    Except PyError ContractABIByAddressResponse :=
  match etherscanResponseBase resp with
  | .error e => .error e
  | .ok base =>
    .ok { toBaseResponse := base,
          contract_abi := jsonGet base.etherscan_response "result" }

/-- `response.ContractStatusResponse`. -/
structure ContractStatusResponse extends BaseResponse where
  contract_status : Option Json

/-- `ContractStatusResponse(resp)`: stores the raw `result`. -/
def ContractStatusResponse.init (resp : RawResponse) :
    Except PyError ContractStatusResponse :=
  match etherscanResponseBase resp with
  | .error e => .error e
  | .ok base =>
    .ok { toBaseResponse := base,
          contract_status := jsonGet base.etherscan_response "result" }

/-- `response.TokenSupplyResponse`. -/
structure TokenSupplyResponse extends BaseResponse where
  total_supply : ℚ

/-- `TokenSupplyResponse(resp)`: sets
`total_supply = float(envelope.get('result'))`. -/
def TokenSupplyResponse.init (resp : RawResponse) :
    Except PyError TokenSupplyResponse :=
  match etherscanResponseBase resp with
  | .error e => .error e
  | .ok base =>
    match pyFloat (jsonGet base.etherscan_response "result") with
    | .ok q => .ok { toBaseResponse := base, total_supply := q }
    | .error e => .error e

/-- Extracts the `balance` attribute of a constructed single-balance
response, when construction succeeded. -/
def balanceOf : Except PyError SingleAddressBalanceResponse → Option ℚ
  | .ok r => some r.balance
  | .error _ => none

/-- The fields of the single-balance example envelope of the spec. -/
def exampleFields : List (String × Json) :=
  [("status", .str "1"), ("message", .str "OK"),
   ("result", .str "748997604382925139479303")]

/-- A 200 response carrying the single-balance example envelope. -/
def exampleBalanceResp : RawResponse :=
  { status_code := 200, text := .valid (.obj exampleFields) }

/-- A 200 response whose body the JSON decoder rejects (the shape the
repository's own test feeds as `FakeResponse(200, '')`). -/
def invalidJsonResp : RawResponse :=
  { status_code := 200, text := .invalid }

/-- A Python value as passed to the client's public entry points. -/
inductive PyValue
  | pstr (s : String)
  | pint (n : Int)
  | pfloat (q : ℚ)
  | pbool (b : Bool)
  | pnone
  | plist (xs : List PyValue)

/-- `isinstance(x, str)`. -/
def isinstance_str : PyValue → Bool
  | .pstr _ => true
  | _ => false

/-- `isinstance(x, (float, int))`; a Python `bool` is an `int`. -/
def isinstance_float_or_int : PyValue → Bool
  | .pint _ => true
  | .pfloat _ => true
  | .pbool _ => true
  | _ => false

/-- `settings.TESTING_API_KEY`. -/
def TESTING_API_KEY : String := "YourApiKeyToken"

/-- `Client._base_url`. -/
def base_url_main : String := "https://api.etherscan.io/"

/-- `Client._test_url`. -/
def test_url : String := "https://ropsten.etherscan.io/"

/-- The state a constructed `Client` holds. -/
structure Client where
  apikey : PyValue
  timeout : PyValue
  base_url : String
  key_uri : String

/-- `Client.__init__`: only the types of the arguments are validated —
`apikey` must be a `str` (any `str`, the empty string included) and
`timeout` a `float` or `int` (any value, zero and negatives included);
the placeholder test key switches the base URL to the test network. -/
def Client.init (apikey timeout : PyValue) : Except PyError Client :=
  match apikey with
  | .pstr key =>
    let base := if key = TESTING_API_KEY then test_url else base_url_main
    if isinstance_float_or_int timeout then
      .ok { apikey := .pstr key, timeout := timeout, base_url := base,
            key_uri := "&apikey=" ++ key }
    else
      .error (.etherscan .initializationE
        "Timeout seconds must be an integer or decimal.")
  | _ => .error (.etherscan .initializationE "You must supply an API key.")

/-- Whether client construction succeeded. -/
def isOkClient : Except PyError Client → Bool
  | .ok _ => true
  | .error _ => false

/-- Whether client construction raised `EtherscanInitializationError`. -/
def isInitError : Except PyError Client → Bool
  | .error (.etherscan .initializationE _) => true
  | _ => false

/-- A client as constructed with an ordinary key. -/
def testClient : Client :=
  { apikey := .pstr "key", timeout := .pint 5,
    base_url := base_url_main, key_uri := "&apikey=key" }

/-- Python `','.join(addresses)` prerequisite: every element must be a
string, otherwise `TypeError`. -/
def pyStrList : List PyValue → Except PyError (List String)
  | [] => .ok []
  | .pstr s :: rest =>
    match pyStrList rest with
    | .ok l => .ok (s :: l)
    | .error e => .error e
  | _ :: _ => .error .typeError

/-- `Client.get_multi_balance` up to the outbound call: validation then
URL construction.  An `.ok url` value models reaching `_get_request`
with that URL; every `.error` is raised before any network call. -/
def Client.get_multi_balance (c : Client) (addresses : PyValue) :
    Except PyError String :=
  match addresses with
  | .plist xs =>
    if xs.length > 20 then
      .error (.etherscan .addressE
        "Etherscan takes a maximum of 20 addresses in a single call.")
    else
      match pyStrList xs with
      | .error e => .error e
      | .ok ss =>
        .ok (c.base_url ++ "api?module=account" ++ "&action=balancemulti"
          ++ "&address=" ++ String.intercalate "," ss ++ "&tag=latest"
          ++ c.key_uri)
  | _ => .error (.etherscan .addressE "A list must be passed to this method.")

/-- The message of the page/offset validation error. -/
def pageOffsetMsg : String := "If using page or offset, both must be set."

/-- `Client.get_transactions_by_address` up to the outbound call: if
either of `page`/`offset` is set, both must be, else
`EtherscanTransactionError`; the URL carries the chosen action and the
optional block-range parameters. -/
def Client.get_transactions_by_address (c : Client) (address : String)
    (startblock endblock : Option Int) (sort : String)
    (offset page : Option Int) (internal : Bool) : Except PyError String :=
  let module_uri := "api?module=account"
  let action_uri := "&action=" ++ (if internal then "txlistinternal" else "txlist")
  let address_uri := "&address=" ++ address
  let startblock_uri :=
    match startblock with
    | none => ""
    | some n => "&startblock=" ++ toString n
  let endblock_uri :=
    match endblock with
    | none => ""
    | some n => "&endblock=" ++ toString n
  let sort_uri := "&sort=" ++ sort
  if page.isSome || offset.isSome then
    match page, offset with
    | some p, some o =>
      .ok (c.base_url ++ module_uri ++ action_uri ++ address_uri
        ++ startblock_uri ++ endblock_uri ++ ("&page=" ++ toString p)
        ++ ("&offset=" ++ toString o) ++ sort_uri ++ c.key_uri)
    | _, _ => .error (.etherscan .transactionE pageOffsetMsg)
  else
    .ok (c.base_url ++ module_uri ++ action_uri ++ address_uri
      ++ startblock_uri ++ endblock_uri ++ "&page=" ++ "&offset="
      ++ sort_uri ++ c.key_uri)

/-- `Client.get_blocks_mined_by_address` up to the outbound call: the
same page/offset rule; `startblock`, `endblock` and `sort` are accepted
but unused by the body. -/
def Client.get_blocks_mined_by_address (c : Client) (address : String)
    (startblock endblock : Option Int) (sort : String)
    (offset page : Option Int) : Except PyError String :=
  if page.isSome || offset.isSome then
    match page, offset with
    | some p, some o =>
      .ok (c.base_url ++ "api?module=account" ++ "&action=getminedblocks"
        ++ "&address=" ++ address ++ "&blocktype=blocks"
        ++ ("&page=" ++ toString p) ++ ("&offset=" ++ toString o) ++ c.key_uri)
    | _, _ => .error (.etherscan .transactionE pageOffsetMsg)
  else
    .ok (c.base_url ++ "api?module=account" ++ "&action=getminedblocks"
      ++ "&address=" ++ address ++ "&blocktype=blocks" ++ "&page="
      ++ "&offset=" ++ c.key_uri)

/-- `Client.get_transaction_by_hash` up to the outbound call: the
signature accepts `startblock`, `endblock`, `sort`, `offset` and `page`,
but the body ignores all of them — no validation and no URL parameter. -/
def Client.get_transaction_by_hash (c : Client) (transaction_hash : String)
    (startblock endblock : Option Int) (sort : String)
    (offset page : Option Int) : Except PyError String :=
  .ok (c.base_url ++ "api?module=account" ++ "&action=txlistinternal"
    ++ "&txhash=" ++ transaction_hash ++ c.key_uri)

/-- Python truthiness of a decoded JSON value: empty containers, the
empty string, zero, `False` and `None`-like `null` are falsy. -/
def truthyJson : Json → Bool
  | .obj fs => !fs.isEmpty
  | .arr xs => !xs.isEmpty
  | .str s => !s.isEmpty
  | .num q => !decide (q = 0)
  | .jbool b => b
  | .null => false

/-- `ethereum.Transaction` state: the backing record `_data` (the
identifying key) and the caches the studied accessors use, initialised
to `None` by `__init__` (the remaining cache slots follow the identical
pattern and are not exercised by the claims under study). -/
structure Transaction where
  _data : List (String × Json)
  _value : Option ℚ
  _gas_price : Option ℚ

/-- A freshly constructed `Transaction(data)`. -/
def Transaction.initT (data : List (String × Json)) : Transaction :=
  { _data := data, _value := none, _gas_price := none }

/-- `Transaction._retrieve_value`: parse `data['value']` with `float`,
store it in `_value` and return it. -/
def Transaction._retrieve_value (t : Transaction) :
    Except PyError (ℚ × Transaction) :=
  match pyFloat (lookupField t._data "value") with
  | .ok q => .ok (q, { t with _value := some q })
  | .error e => .error e

/-- `Transaction.value`: `self._value or self._retrieve_value()` — the
cached value is returned only when truthy (`None` and `0.0` are falsy,
so a zero value recomputes).  The Bool records whether the access
recomputed. -/
def Transaction.value (t : Transaction) :
    Except PyError (ℚ × Transaction × Bool) :=
  match t._value with
  | some q =>
    if q = 0 then
      match t._retrieve_value with
      | .ok (q2, t2) => .ok (q2, t2, true)
      | .error e => .error e
    else .ok (q, t, false)
  | none =>
    match t._retrieve_value with
    | .ok (q2, t2) => .ok (q2, t2, true)
    | .error e => .error e

/-- `Transaction._retrieve_gas_price`: parse `data['gasPrice']` with
`float`, store it in `_gas_price` and return it. -/
def Transaction._retrieve_gas_price (t : Transaction) :
    Except PyError (ℚ × Transaction) :=
  match pyFloat (lookupField t._data "gasPrice") with
  | .ok q => .ok (q, { t with _gas_price := some q })
  | .error e => .error e

/-- `Transaction.gas_price`:
`self._gas_price or self._retrieve_gas_price()`. -/
def Transaction.gas_price (t : Transaction) :
    Except PyError (ℚ × Transaction × Bool) :=
  match t._gas_price with
  | some q =>
    if q = 0 then
      match t._retrieve_gas_price with
      | .ok (q2, t2) => .ok (q2, t2, true)
      | .error e => .error e
    else .ok (q, t, false)
  | none =>
    match t._retrieve_gas_price with
    | .ok (q2, t2) => .ok (q2, t2, true)
    | .error e => .error e

/-- `ethereum.Address` state: the identifying `address` string and the
caches the studied accessors use (`_block_list` follows the identical
pattern and is not exercised by the claims under study). -/
structure Address where
  address : String
  _balance : Option ℚ
  _transactions : Option (List Json)

/-- A freshly constructed `Address(address)`. -/
def Address.initA (address : String) : Address :=
  { address := address, _balance := none, _transactions := none }

/-- `Address._retrieve_balance`: the single-balance client call is an
external collaborator, modelled by the oracle `fetch` from address to
parsed balance; the result is stored in `_balance` and returned. -/
def Address._retrieve_balance (fetch : String → ℚ) (a : Address) :
    ℚ × Address :=
  (fetch a.address, { a with _balance := some (fetch a.address) })

/-- `Address.balance`: `self._balance or self._retrieve_balance()`. -/
def Address.balance (fetch : String → ℚ) (a : Address) :
    ℚ × Address × Bool :=
  match a._balance with
  | some q =>
    if q = 0 then
      let r := Address._retrieve_balance fetch a
      (r.1, r.2, true)
    else (q, a, false)
  | none =>
    let r := Address._retrieve_balance fetch a
    (r.1, r.2, true)

/-- `Address._retrieve_transactions_for_address`: fetches the normal and
the internal transaction lists (two client calls, modelled by oracles),
assigns their concatenation — normal entries first, in fetched order —
to `self._transactions`, and, having no `return` statement, evaluates to
`None`. -/
def Address._retrieve_transactions_for_address
    (fetchN fetchI : String → List Json) (a : Address) :
    Option (List Json) × Address :=
  let normal := fetchN a.address
  let internal := fetchI a.address
  (none, { a with _transactions := some (normal ++ internal) })

/-- `Address._raw_transactions`:
`self._transactions or self._retrieve_transactions_for_address()` — an
empty cached list is falsy and refetches. -/
def Address._raw_transactions (fetchN fetchI : String → List Json)
    (a : Address) : Option (List Json) × Address :=
  match a._transactions with
  | some l =>
    if l.isEmpty then Address._retrieve_transactions_for_address fetchN fetchI a
    else (some l, a)
  | none => Address._retrieve_transactions_for_address fetchN fetchI a

/-- `ethereum.TransactionContainer`: wraps whatever
`_raw_transactions` evaluated to (`none` models Python `None`). -/
structure TransactionContainer where
  transaction_list : Option (List Json)

/-- `Address.transactions`: returns
`TransactionContainer(self._raw_transactions)`. -/
def Address.transactions (fetchN fetchI : String → List Json)
    (a : Address) : TransactionContainer × Address :=
  let r := Address._raw_transactions fetchN fetchI a
  ({ transaction_list := r.1 }, r.2)

/-- `ethereum.Token` state: the identifying `contract_address` and the
`_supply` cache. -/
structure Token where
  contract_address : String
  _supply : Option ℚ

/-- A freshly constructed `Token(contract_address)`. -/
def Token.initTk (contract_address : String) : Token :=
  { contract_address := contract_address, _supply := none }

/-- `Token._retrieve_supply`: the token-supply client call modelled by
an oracle; the result is stored in `_supply` and returned. -/
def Token._retrieve_supply (fetchS : String → ℚ) (tk : Token) :
    ℚ × Token :=
  (fetchS tk.contract_address,
    { tk with _supply := some (fetchS tk.contract_address) })

/-- `Token.supply`: `self._supply or self._retrieve_supply()`. -/
def Token.supply (fetchS : String → ℚ) (tk : Token) : ℚ × Token × Bool :=
  match tk._supply with
  | some q =>
    if q = 0 then
      let r := Token._retrieve_supply fetchS tk
      (r.1, r.2, true)
    else (q, tk, false)
  | none =>
    let r := Token._retrieve_supply fetchS tk
    (r.1, r.2, true)

/-- `ethereum.Block` state: the identifying `block_number` and the
caches of the rewards-data path (`_time_stamp`, `_block_miner`, the
other derived slots follow the identical pattern). -/
structure Block where
  block_number : Int
  _block_reward_data : Option Json
  _block_reward : Option ℚ

/-- A freshly constructed `Block(block_number)`. -/
def Block.initB (block_number : Int) : Block :=
  { block_number := block_number, _block_reward_data := none,
    _block_reward := none }

/-- `Block._retrieve_block_reward_data`: the combined rewards call
modelled by an oracle from block number to decoded `rewards_data`;
stored in `_block_reward_data` and returned. -/
def Block._retrieve_block_reward_data (fetchB : Int → Json) (blk : Block) :
    Json × Block :=
  (fetchB blk.block_number,
    { blk with _block_reward_data := some (fetchB blk.block_number) })

/-- `Block._raw_block_data`:
`self._block_reward_data or self._retrieve_block_reward_data()` — a
cached falsy value (e.g. an empty dict) refetches.  The Bool records
whether the access refetched. -/
def Block._raw_block_data (fetchB : Int → Json) (blk : Block) :
    Json × Block × Bool :=
  match blk._block_reward_data with
  | some d =>
    if truthyJson d then (d, blk, false)
    else
      let r := Block._retrieve_block_reward_data fetchB blk
      (r.1, r.2, true)
  | none =>
    let r := Block._retrieve_block_reward_data fetchB blk
    (r.1, r.2, true)

/-- `Block._retrieve_block_reward`:
`float(self._raw_block_data.get('blockReward'))`, stored in
`_block_reward` and returned (the `_raw_block_data` access may itself
fetch and cache the rewards dict). -/
def Block._retrieve_block_reward (fetchB : Int → Json) (blk : Block) :
    Except PyError (ℚ × Block) :=
  let rd := Block._raw_block_data fetchB blk
  match pyFloat (jsonGet rd.1 "blockReward") with
  | .ok q => .ok (q, { rd.2.1 with _block_reward := some q })
  | .error e => .error e

/-- `Block.block_reward`:
`self._block_reward or self._retrieve_block_reward()`. -/
def Block.block_reward (fetchB : Int → Json) (blk : Block) :
    Except PyError (ℚ × Block × Bool) :=
  match blk._block_reward with
  | some q =>
    if q = 0 then
      match Block._retrieve_block_reward fetchB blk with
      | .ok (q2, b2) => .ok (q2, b2, true)
      | .error e => .error e
    else .ok (q, blk, false)
  | none =>
    match Block._retrieve_block_reward fetchB blk with
    | .ok (q2, b2) => .ok (q2, b2, true)
    | .error e => .error e

/-- A transaction whose `value` cache holds the truthy 5. -/
def sampleCachedTx : Transaction :=
  { _data := [("value", Json.str "5")], _value := some 5, _gas_price := none }

/-- An address whose balance cache holds the falsy 0. -/
def sampleZeroBalanceAddr : Address :=
  { address := "0xa", _balance := some 0, _transactions := none }

/-- A transport that fails transiently on the first four attempts and
succeeds on the fifth. -/
def transientThenOk : Nat → Except PyError Nat :=
  fun i => if i < 4 then .error (.etherscan .connectionE "timeout") else .ok 7

/-- A transport that raises `EtherscanDataError` on every attempt. -/
def alwaysDataError : Nat → Except PyError Nat :=
  fun _ => .error (.etherscan .dataE "NOTOK")

theorem retryGo_last (t : Nat → Except PyError α) (i : Nat) :
    retryGo t 1 i = (t i, []) := by
  cases h : t i with
  | ok a => simp [retryGo, h]
  | error e => simp [retryGo, h]

theorem retryGo_ok (t : Nat → Except PyError α) (fuel i : Nat) (a : α)
    (h : t i = .ok a) : retryGo t (fuel + 1) i = (.ok a, []) := by
  simp [retryGo, h]

theorem retryGo_stop (t : Nat → Except PyError α) (fuel i : Nat) (e : PyError)
    (h : t i = .error e) (hc : check_exception_for_retry e = false) :
    retryGo t (fuel + 1) i = (.error e, []) := by
  cases fuel with
  | zero => simp [retryGo, h]
  | succ m => simp [retryGo, h, hc]

theorem retryGo_retry (t : Nat → Except PyError α) (fuel i : Nat) (e : PyError)
    (h : t i = .error e) (hc : check_exception_for_retry e = true) :
    retryGo t (fuel + 2) i =
      ((retryGo t (fuel + 1) (i + 1)).1,
        backoffMs i :: (retryGo t (fuel + 1) (i + 1)).2) := by
  simp [retryGo, h, hc]

theorem retryGo_waits_length (t : Nat → Except PyError α) :
    ∀ fuel i, (retryGo t fuel i).2.length + 1 ≤ max fuel 1 := by
  intro fuel
  induction fuel with
  | zero => intro i; simp [retryGo]
  | succ m ih =>
    intro i
    cases h : t i with
    | ok a => simp [retryGo, h]
    | error e =>
      cases m with
      | zero => simp [retryGo, h]
      | succ k =>
        by_cases hc : check_exception_for_retry e = true
        · rw [retryGo_retry t k i e h hc]
          have h2 := ih (i + 1)
          simp only [List.length_cons]
          omega
        · rw [retryGo_stop t (k + 1) i e h (by simpa using hc)]
          simp

/-- Stepping lemma: if the first `k` attempts starting at index `i` all
fail with retryable errors and `k < fuel`, the run continues at index
`i + k` with `fuel - k` budget, having waited `backoffMs` at each failed
attempt index. -/
theorem retryGo_skip (t : Nat → Except PyError α) :
    ∀ (k fuel i : Nat), k < fuel →
      (∀ j, j < k → ∃ e, t (i + j) = .error e ∧ check_exception_for_retry e = true) →
      retryGo t fuel i =
        ((retryGo t (fuel - k) (i + k)).1,
          ((List.range k).map (fun j => backoffMs (i + j)))
            ++ (retryGo t (fuel - k) (i + k)).2) := by
  intro k
  induction k with
  | zero => intro fuel i _ _; simp
  | succ n ih =>
    intro fuel i hlt hr
    obtain ⟨e0, h0, hc0⟩ := hr 0 (Nat.succ_pos n)
    simp only [Nat.add_zero] at h0
    obtain ⟨m, rfl⟩ : ∃ m, fuel = m + 2 := ⟨fuel - 2, by omega⟩
    rw [retryGo_retry t m i e0 h0 hc0]
    have hr1 : ∀ j, j < n →
        ∃ e, t (i + 1 + j) = .error e ∧ check_exception_for_retry e = true := by
      intro j hj
      have h2 := hr (j + 1) (Nat.succ_lt_succ hj)
      have h3 : i + (j + 1) = i + 1 + j := by omega
      rwa [h3] at h2
    have ihm := ih (m + 1) (i + 1) (by omega) hr1
    have harith1 : m + 1 - n = m + 2 - (n + 1) := by omega
    have harith2 : i + 1 + n = i + (n + 1) := by omega
    rw [harith1, harith2] at ihm
    rw [ihm]
    have hmap : backoffMs i :: (List.range n).map (fun j => backoffMs (i + 1 + j))
        = (List.range (n + 1)).map (fun j => backoffMs (i + j)) := by
      rw [List.range_succ_eq_map]
      simp [List.map_map, Function.comp]
      intro a _
      congr 1
      omega
    simp only [← List.cons_append]
    rw [hmap]

/-- C1: a failed attempt is retried exactly when the error is neither a
DataError nor a RequestError; backoff is exponential starting at 1000 ms
capped at 10000 ms; at most 5 attempts are made; after exhaustion the
last error propagates; a DataError or RequestError stops the run at once. -/
theorem C1_retry_policy (α : Type) :
    (∀ e, check_exception_for_retry e =
      (!(isEtherscanDataError e) && !(isEtherscanRequestError e)))
    ∧ (∀ (t : Nat → Except PyError α) (k : Nat) (e : PyError), k < 5 →
        (∀ j, j < k → ∃ e2, t j = .error e2 ∧ check_exception_for_retry e2 = true) →
        t k = .error e → check_exception_for_retry e = false →
        get_request t = .error e ∧ attemptsUsed t = k + 1)
    ∧ (∀ (t : Nat → Except PyError α) (k : Nat) (a : α), k < 5 →
        (∀ j, j < k → ∃ e2, t j = .error e2 ∧ check_exception_for_retry e2 = true) →
        t k = .ok a →
        get_request t = .ok a ∧ attemptsUsed t = k + 1)
    ∧ (∀ (t : Nat → Except PyError α),
        (∀ j, j < 5 → ∃ e2, t j = .error e2 ∧ check_exception_for_retry e2 = true) →
        get_request t = t 4 ∧ attemptsUsed t = 5
          ∧ get_request_waits t = [1000, 2000, 4000, 8000])
    ∧ (∀ (t : Nat → Except PyError α), attemptsUsed t ≤ 5)
    ∧ backoffMs 0 = 1000
    ∧ (∀ k, backoffMs k = min (1000 * 2 ^ k) 10000 ∧ backoffMs k ≤ 10000) := by
  have h5 : stop_max_attempt_number = 5 := rfl
  refine ⟨fun e => rfl, ?_, ?_, ?_, ?_, rfl, fun k => ⟨rfl, Nat.min_le_right _ _⟩⟩
  · intro t k e hk hr he hc
    have hskip := retryGo_skip t k 5 0 hk (by simpa using hr)
    obtain ⟨m, hm⟩ : ∃ m, 5 - k = m + 1 := ⟨4 - k, by omega⟩
    have hstop := retryGo_stop t m k e he hc
    rw [hm] at hskip
    simp only [Nat.zero_add] at hskip
    rw [hstop] at hskip
    constructor
    · simp only [get_request, h5, hskip]
    · simp only [attemptsUsed, get_request_waits, h5, hskip]
      simp
  · intro t k a hk hr he
    have hskip := retryGo_skip t k 5 0 hk (by simpa using hr)
    obtain ⟨m, hm⟩ : ∃ m, 5 - k = m + 1 := ⟨4 - k, by omega⟩
    have hok := retryGo_ok t m k a he
    rw [hm] at hskip
    simp only [Nat.zero_add] at hskip
    rw [hok] at hskip
    constructor
    · simp only [get_request, h5, hskip]
    · simp only [attemptsUsed, get_request_waits, h5, hskip]
      simp
  · intro t hr
    have hskip := retryGo_skip t 4 5 0 (by norm_num) (by simpa using fun j hj => hr j (by omega))
    simp only [Nat.zero_add, show (5 : Nat) - 4 = 1 from rfl] at hskip
    rw [retryGo_last t 4] at hskip
    refine ⟨?_, ?_, ?_⟩
    · simp only [get_request, h5, hskip]
    · simp only [attemptsUsed, get_request_waits, h5, hskip]
      simp
    · simp only [get_request_waits, h5, hskip]
      simp only [List.append_nil]
      rfl
  · intro t
    have h2 := retryGo_waits_length t 5 0
    simp only [attemptsUsed, get_request_waits, h5]
    omega

/-- C1 witness: the transient-four-failures transport succeeds on the
fifth attempt, and the constant-DataError transport fails on the first
attempt with no retry. -/
theorem C1_retry_policy_witness :
    (get_request transientThenOk = .ok 7 ∧ attemptsUsed transientThenOk = 5)
    ∧ (get_request alwaysDataError = .error (.etherscan .dataE "NOTOK")
        ∧ attemptsUsed alwaysDataError = 1) := by
  have h1 := (C1_retry_policy Nat).2.2.1 transientThenOk 4 7 (by norm_num)
      (fun j hj => ⟨.etherscan .connectionE "timeout", by simp [transientThenOk, hj], rfl⟩)
      (by simp [transientThenOk])
  have h2 := (C1_retry_policy Nat).2.1 alwaysDataError 0 (.etherscan .dataE "NOTOK")
      (by norm_num) (fun j hj => absurd hj (Nat.not_lt_zero j)) rfl rfl
  exact ⟨h1, h2⟩

/-- C2: a 403 status makes every typed response constructor raise
`EtherscanRequestError`, the retry predicate rejects that error, and a
transport whose every attempt raises it makes exactly one attempt. -/
theorem C2_http_403_request_error :
    (∀ resp : RawResponse, resp.status_code = 403 →
      SingleAddressBalanceResponse.init resp = .error rateLimitError
      ∧ MultiAddressBalanceResponse.init resp = .error rateLimitError
      ∧ TransactionsByAddressResponse.init resp = .error rateLimitError
      ∧ TransactionsByHashResponse.init resp = .error rateLimitError
      ∧ BlocksMinedByAddressResponse.init resp = .error rateLimitError
      ∧ ContractABIByAddressResponse.init resp = .error rateLimitError
      ∧ ContractStatusResponse.init resp = .error rateLimitError
      ∧ TokenSupplyResponse.init resp = .error rateLimitError)
    ∧ check_exception_for_retry rateLimitError = false
    ∧ (∀ (α : Type) (t : Nat → Except PyError α),
        (∀ i, t i = .error rateLimitError) →
        get_request t = .error rateLimitError ∧ attemptsUsed t = 1) := by
  refine ⟨?_, rfl, ?_⟩
  · intro resp h403
    have hbase : etherscanResponseBase resp = .error rateLimitError := by
      simp [etherscanResponseBase, h403]
    simp [SingleAddressBalanceResponse.init, MultiAddressBalanceResponse.init,
      TransactionsByAddressResponse.init, TransactionsByHashResponse.init,
      BlocksMinedByAddressResponse.init, ContractABIByAddressResponse.init,
      ContractStatusResponse.init, TokenSupplyResponse.init, hbase]
  · intro α t ht
    have hstop : retryGo t 5 0 = (.error rateLimitError, []) :=
      retryGo_stop t 4 0 rateLimitError (ht 0) rfl
    constructor
    · simp only [get_request, show stop_max_attempt_number = 5 from rfl, hstop]
    · simp only [attemptsUsed, get_request_waits,
        show stop_max_attempt_number = 5 from rfl, hstop, List.length_nil]

/-- C2 witness: the concrete 403 response fails every constructor with
the rate-limit `RequestError` and the corresponding transport stops
after one attempt. -/
theorem C2_http_403_request_error_witness :
    SingleAddressBalanceResponse.init { status_code := 403, text := .invalid }
      = .error rateLimitError
    ∧ get_request (fun _ => (.error rateLimitError : Except PyError Nat))
      = .error rateLimitError
    ∧ attemptsUsed (fun _ => (.error rateLimitError : Except PyError Nat)) = 1 := by
  have h1 := (C2_http_403_request_error.1 { status_code := 403, text := .invalid } rfl).1
  have h2 := C2_http_403_request_error.2.2 Nat (fun _ => .error rateLimitError)
    (fun _ => rfl)
  exact ⟨h1, h2.1, h2.2⟩

/-- C3 (divergence witness): a non-403 response whose body the JSON
decoder rejects makes every constructor raise the decoder's
`JSONDecodeError`, which is not an `EtherscanRequestError` (nor any
taxonomy error), and which the retry predicate even accepts for retry —
contradicting the spec and the repository's own
`test_invalid_request`, which expect `EtherscanRequestError`. -/
theorem C3_invalid_json_not_request_error :
    SingleAddressBalanceResponse.init invalidJsonResp = .error .jsonDecodeError
    ∧ MultiAddressBalanceResponse.init invalidJsonResp = .error .jsonDecodeError
    ∧ TransactionsByAddressResponse.init invalidJsonResp = .error .jsonDecodeError
    ∧ TransactionsByHashResponse.init invalidJsonResp = .error .jsonDecodeError
    ∧ BlocksMinedByAddressResponse.init invalidJsonResp = .error .jsonDecodeError
    ∧ ContractABIByAddressResponse.init invalidJsonResp = .error .jsonDecodeError
    ∧ ContractStatusResponse.init invalidJsonResp = .error .jsonDecodeError
    ∧ TokenSupplyResponse.init invalidJsonResp = .error .jsonDecodeError
    ∧ isEtherscanRequestError .jsonDecodeError = false
    ∧ isEtherscanBaseError .jsonDecodeError = false
    ∧ check_exception_for_retry .jsonDecodeError = true :=
  ⟨rfl, rfl, rfl, rfl, rfl, rfl, rfl, rfl, rfl, rfl, rfl⟩

/-- C7: a single-balance response built from an envelope whose `result`
is a numeric string has `balance` equal to the numeric parse of that
string; in particular the spec's example envelope yields
748997604382925139479303. -/
theorem C7_single_balance_parse :
    (∀ (resp : RawResponse) (fields : List (String × Json)) (s : String) (q : ℚ),
        resp.status_code ≠ 403 → resp.text = .valid (.obj fields) →
        lookupField fields "result" = some (.str s) →
        pyFloatOfString s = some q →
        balanceOf (SingleAddressBalanceResponse.init resp) = some q)
    ∧ balanceOf (SingleAddressBalanceResponse.init exampleBalanceResp)
        = some (748997604382925139479303 : ℚ) := by
  constructor
  · intro resp fields s q h403 htext hres hparse
    have hbase : etherscanResponseBase resp
        = .ok { etherscan_response := .obj fields,
                response_status_code := resp.status_code,
                status := lookupField fields "status",
                message := lookupField fields "message" } := by
      simp [etherscanResponseBase, h403, htext]
    simp [SingleAddressBalanceResponse.init, hbase, jsonGet, hres, pyFloat,
      hparse, balanceOf]
  · have h1 : balanceOf (SingleAddressBalanceResponse.init exampleBalanceResp)
        = some ((748997604382925139479303 : Nat) : ℚ) := rfl
    rw [h1]
    norm_num

/-- C7 witness: the general parse statement applied to the example
envelope. -/
theorem C7_single_balance_parse_witness :
    balanceOf (SingleAddressBalanceResponse.init exampleBalanceResp)
      = some ((748997604382925139479303 : Nat) : ℚ) :=
  C7_single_balance_parse.1 exampleBalanceResp exampleFields
    "748997604382925139479303" ((748997604382925139479303 : Nat) : ℚ)
    (by decide) rfl rfl rfl

/-- C10: `TransactionsByHashResponse` takes the first element of the
`result` list; an empty list fails with `IndexError` and an absent
`result` with `TypeError`, neither of which belongs to the client's
error taxonomy. -/
theorem C10_tx_by_hash_unguarded_index :
    (∀ (resp : RawResponse) (fields : List (String × Json)) (x : Json)
        (xs : List Json),
        resp.status_code ≠ 403 → resp.text = .valid (.obj fields) →
        lookupField fields "result" = some (.arr (x :: xs)) →
        ∃ r, TransactionsByHashResponse.init resp = .ok r ∧ r.transaction = x)
    ∧ (∀ (resp : RawResponse) (fields : List (String × Json)),
        resp.status_code ≠ 403 → resp.text = .valid (.obj fields) →
        lookupField fields "result" = some (.arr []) →
        TransactionsByHashResponse.init resp = .error .indexError)
    ∧ (∀ (resp : RawResponse) (fields : List (String × Json)),
        resp.status_code ≠ 403 → resp.text = .valid (.obj fields) →
        lookupField fields "result" = none →
        TransactionsByHashResponse.init resp = .error .typeError)
    ∧ isEtherscanBaseError .indexError = false
    ∧ isEtherscanBaseError .typeError = false := by
  have hbase : ∀ (resp : RawResponse) (fields : List (String × Json)),
      resp.status_code ≠ 403 → resp.text = .valid (.obj fields) →
      etherscanResponseBase resp
        = .ok { etherscan_response := .obj fields,
                response_status_code := resp.status_code,
                status := lookupField fields "status",
                message := lookupField fields "message" } := by
    intro resp fields h403 htext
    simp [etherscanResponseBase, h403, htext]
  refine ⟨?_, ?_, ?_, rfl, rfl⟩
  · intro resp fields x xs h403 htext hres
    simp [TransactionsByHashResponse.init, hbase resp fields h403 htext,
      jsonGet, hres, pyIndexZero]
  · intro resp fields h403 htext hres
    simp [TransactionsByHashResponse.init, hbase resp fields h403 htext,
      jsonGet, hres, pyIndexZero]
  · intro resp fields h403 htext hres
    simp [TransactionsByHashResponse.init, hbase resp fields h403 htext,
      jsonGet, hres, pyIndexZero]

/-- C10 witness: concrete envelopes with a one-element, an empty and an
absent `result`. -/
theorem C10_tx_by_hash_unguarded_index_witness :
    (∃ r, TransactionsByHashResponse.init
        { status_code := 200,
          text := .valid (.obj [("result", .arr [.str "tx"])]) } = .ok r
      ∧ r.transaction = .str "tx")
    ∧ TransactionsByHashResponse.init
        { status_code := 200, text := .valid (.obj [("result", .arr [])]) }
        = .error .indexError
    ∧ TransactionsByHashResponse.init
        { status_code := 200, text := .valid (.obj [("status", .str "0")]) }
        = .error .typeError := by
  refine ⟨?_, ?_, ?_⟩
  · exact C10_tx_by_hash_unguarded_index.1 _ [("result", .arr [.str "tx"])]
      (.str "tx") [] (by decide) rfl rfl
  · exact C10_tx_by_hash_unguarded_index.2.1 _ [("result", .arr [])]
      (by decide) rfl rfl
  · exact C10_tx_by_hash_unguarded_index.2.2.1 _ [("status", .str "0")]
      (by decide) rfl rfl

/-- C4 counterexample: construction with the empty-string apikey and a
positive timeout succeeds, and so does construction with a negative
timeout — the claim requires `InitializationError` for both. -/
theorem C4_counterexample_type_only_validation :
    isOkClient (Client.init (.pstr "") (.pint 5)) = true
    ∧ isOkClient (Client.init (.pstr "key") (.pint (-3))) = true :=
  ⟨rfl, rfl⟩

/-- C4 (amended): construction raises `InitializationError` exactly when
`apikey` is not a `str` or `timeout` is not a `float`/`int` (`bool`
included); string emptiness and timeout positivity are not checked. -/
theorem C4_init_validates_types_only (apikey timeout : PyValue) :
    isOkClient (Client.init apikey timeout)
      = (isinstance_str apikey && isinstance_float_or_int timeout)
    ∧ isInitError (Client.init apikey timeout)
      = !(isinstance_str apikey && isinstance_float_or_int timeout) := by
  cases apikey <;> cases timeout <;>
    simp [Client.init, isinstance_str, isinstance_float_or_int,
      isOkClient, isInitError]

/-- C4 witness: the type-only rule applied at a string key with an
integer timeout (accepted) and at a `None` key (rejected). -/
theorem C4_init_validates_types_only_witness :
    isOkClient (Client.init (.pstr "k") (.pint 5)) = true
    ∧ isInitError (Client.init .pnone (.pint 5)) = true := by
  have h1 := C4_init_validates_types_only (.pstr "k") (.pint 5)
  have h2 := C4_init_validates_types_only .pnone (.pint 5)
  exact ⟨by rw [h1.1]; rfl, by rw [h2.2]; rfl⟩

/-- C5: `get_multi_balance` rejects every non-list argument and every
list longer than 20 with `AddressError` before building the request URL;
a list of at most 20 address strings passes validation and reaches the
request with its URL. -/
theorem C5_multi_balance_validation :
    (∀ (c : Client) (v : PyValue), (∀ xs, v ≠ .plist xs) →
      Client.get_multi_balance c v
        = .error (.etherscan .addressE "A list must be passed to this method."))
    ∧ (∀ (c : Client) (xs : List PyValue), xs.length > 20 →
      Client.get_multi_balance c (.plist xs)
        = .error (.etherscan .addressE
            "Etherscan takes a maximum of 20 addresses in a single call."))
    ∧ (∀ (c : Client) (ss : List String), ss.length ≤ 20 →
      ∃ url, Client.get_multi_balance c (.plist (ss.map PyValue.pstr))
        = .ok url) := by
  have hstr : ∀ ss : List String, pyStrList (ss.map PyValue.pstr) = .ok ss := by
    intro ss
    induction ss with
    | nil => rfl
    | cons s rest ih => simp [pyStrList, ih]
  refine ⟨?_, ?_, ?_⟩
  · intro c v hv
    cases v with
    | plist xs => exact absurd rfl (hv xs)
    | pstr s => rfl
    | pint n => rfl
    | pfloat q => rfl
    | pbool b => rfl
    | pnone => rfl
  · intro c xs hlen
    simp [Client.get_multi_balance, hlen]
  · intro c ss hlen
    refine ⟨c.base_url ++ "api?module=account" ++ "&action=balancemulti"
      ++ "&address=" ++ String.intercalate "," ss ++ "&tag=latest"
      ++ c.key_uri, ?_⟩
    simp only [Client.get_multi_balance, List.length_map]
    rw [if_neg (by omega), hstr ss]

/-- C5 witness: a non-list argument and a 21-address list both fail with
`AddressError`, while a 2-address list reaches the request. -/
theorem C5_multi_balance_validation_witness :
    Client.get_multi_balance testClient (.pint 0)
      = .error (.etherscan .addressE "A list must be passed to this method.")
    ∧ Client.get_multi_balance testClient
        (.plist (List.replicate 21 (PyValue.pstr "0xa")))
      = .error (.etherscan .addressE
          "Etherscan takes a maximum of 20 addresses in a single call.")
    ∧ ∃ url, Client.get_multi_balance testClient
        (.plist (["0xa", "0xb"].map PyValue.pstr)) = .ok url := by
  refine ⟨?_, ?_, ?_⟩
  · exact C5_multi_balance_validation.1 testClient (.pint 0)
      (fun xs h => by cases h)
  · exact C5_multi_balance_validation.2.1 testClient
      (List.replicate 21 (PyValue.pstr "0xa")) (by simp)
  · exact C5_multi_balance_validation.2.2 testClient ["0xa", "0xb"] (by norm_num)

/-- C6 counterexample: `get_transaction_by_hash` accepts both `page` and
`offset` parameters, yet supplying `page` alone raises nothing — the
call proceeds and its URL ignores the parameter, where the claim
requires `EtherscanTransactionError`. -/
theorem C6_counterexample_hash_ignores_page_offset :
    Client.get_transaction_by_hash testClient "0xh" none none "asc"
        none (some 1)
      = .ok ("https://api.etherscan.io/api?module=account" ++
          "&action=txlistinternal" ++ "&txhash=0xh" ++ "&apikey=key") :=
  rfl

/-- C6 (amended): `get_transactions_by_address` and
`get_blocks_mined_by_address` raise `EtherscanTransactionError` exactly
when one of `page`/`offset` is supplied without the other, and proceed
otherwise; `get_transaction_by_hash` accepts the two parameters but
ignores them and never raises for them. -/
theorem C6_page_offset_both_or_neither (c : Client) (address sort : String)
    (startblock endblock : Option Int) (offset page : Option Int)
    (internal : Bool) :
    (page.isSome ≠ offset.isSome →
      Client.get_transactions_by_address c address startblock endblock sort
          offset page internal
        = .error (.etherscan .transactionE pageOffsetMsg)
      ∧ Client.get_blocks_mined_by_address c address startblock endblock sort
          offset page
        = .error (.etherscan .transactionE pageOffsetMsg))
    ∧ (page.isSome = offset.isSome →
      (∃ u, Client.get_transactions_by_address c address startblock endblock
          sort offset page internal = .ok u)
      ∧ (∃ u, Client.get_blocks_mined_by_address c address startblock endblock
          sort offset page = .ok u))
    ∧ (∃ u, Client.get_transaction_by_hash c address startblock endblock sort
        offset page = .ok u) := by
  refine ⟨?_, ?_, ⟨_, rfl⟩⟩
  · intro hne
    cases page <;> cases offset <;>
      simp_all [Client.get_transactions_by_address,
        Client.get_blocks_mined_by_address]
  · intro heq
    cases page <;> cases offset <;>
      simp_all [Client.get_transactions_by_address,
        Client.get_blocks_mined_by_address]

/-- C6 witness: with `page` supplied and `offset` absent the two
validating operations raise `EtherscanTransactionError`, with both
supplied they proceed, and `get_transaction_by_hash` proceeds either
way. -/
theorem C6_page_offset_both_or_neither_witness :
    (Client.get_transactions_by_address testClient "0xa" none none "asc"
        none (some 1) false
      = .error (.etherscan .transactionE pageOffsetMsg)
      ∧ Client.get_blocks_mined_by_address testClient "0xa" none none "asc"
        none (some 1)
      = .error (.etherscan .transactionE pageOffsetMsg))
    ∧ ((∃ u, Client.get_transactions_by_address testClient "0xa" none none
        "asc" (some 10) (some 1) false = .ok u)
      ∧ (∃ u, Client.get_blocks_mined_by_address testClient "0xa" none none
        "asc" (some 10) (some 1) = .ok u))
    ∧ (∃ u, Client.get_transaction_by_hash testClient "0xa" none none "asc"
        none (some 1) = .ok u) := by
  have h := C6_page_offset_both_or_neither testClient "0xa" "asc" none none
    none (some 1) false
  have h2 := C6_page_offset_both_or_neither testClient "0xa" "asc" none none
    (some 10) (some 1) false
  exact ⟨h.1 (by simp), h2.2.1 (by simp), h.2.2⟩

theorem value_cached_truthy (t : Transaction) (q : ℚ)
    (hv : t._value = some q) (hq : q ≠ 0) :
    Transaction.value t = .ok (q, t, false) := by
  simp [Transaction.value, hv, hq]

theorem value_computes (t : Transaction) (q : ℚ)
    (hv : t._value = none ∨ t._value = some 0)
    (hp : pyFloat (lookupField t._data "value") = .ok q) :
    Transaction.value t = .ok (q, { t with _value := some q }, true) := by
  rcases hv with hv | hv <;>
    simp [Transaction.value, Transaction._retrieve_value, hv, hp]

theorem value_fails (t : Transaction) (e : PyError)
    (hv : t._value = none ∨ t._value = some 0)
    (hp : pyFloat (lookupField t._data "value") = .error e) :
    Transaction.value t = .error e := by
  rcases hv with hv | hv <;>
    simp [Transaction.value, Transaction._retrieve_value, hv, hp]

theorem value_state (t : Transaction) (r : ℚ × Transaction × Bool)
    (h : Transaction.value t = .ok r) :
    r.2.1._data = t._data ∧ r.2.1._value = some r.1
      ∧ (r.2.2 = true → pyFloat (lookupField t._data "value") = .ok r.1) := by
  cases hv : t._value with
  | none =>
    cases hp : pyFloat (lookupField t._data "value") with
    | ok q2 =>
      rw [value_computes t q2 (Or.inl hv) hp] at h
      injection h with h2
      subst h2
      exact ⟨rfl, rfl, fun _ => rfl⟩
    | error e =>
      rw [value_fails t e (Or.inl hv) hp] at h
      cases h
  | some q0 =>
    by_cases h0 : q0 = 0
    · subst h0
      cases hp : pyFloat (lookupField t._data "value") with
      | ok q2 =>
        rw [value_computes t q2 (Or.inr hv) hp] at h
        injection h with h2
        subst h2
        exact ⟨rfl, rfl, fun _ => rfl⟩
      | error e =>
        rw [value_fails t e (Or.inr hv) hp] at h
        cases h
    · rw [value_cached_truthy t q0 hv h0] at h
      injection h with h2
      subst h2
      exact ⟨rfl, hv, fun hb => by cases hb⟩

theorem gas_price_cached_truthy (t : Transaction) (q : ℚ)
    (hv : t._gas_price = some q) (hq : q ≠ 0) :
    Transaction.gas_price t = .ok (q, t, false) := by
  simp [Transaction.gas_price, hv, hq]

theorem gas_price_computes (t : Transaction) (q : ℚ)
    (hv : t._gas_price = none ∨ t._gas_price = some 0)
    (hp : pyFloat (lookupField t._data "gasPrice") = .ok q) :
    Transaction.gas_price t = .ok (q, { t with _gas_price := some q }, true) := by
  rcases hv with hv | hv <;>
    simp [Transaction.gas_price, Transaction._retrieve_gas_price, hv, hp]

theorem gas_price_fails (t : Transaction) (e : PyError)
    (hv : t._gas_price = none ∨ t._gas_price = some 0)
    (hp : pyFloat (lookupField t._data "gasPrice") = .error e) :
    Transaction.gas_price t = .error e := by
  rcases hv with hv | hv <;>
    simp [Transaction.gas_price, Transaction._retrieve_gas_price, hv, hp]

theorem gas_price_state (t : Transaction) (r : ℚ × Transaction × Bool)
    (h : Transaction.gas_price t = .ok r) :
    r.2.1._data = t._data ∧ r.2.1._gas_price = some r.1 := by
  cases hv : t._gas_price with
  | none =>
    cases hp : pyFloat (lookupField t._data "gasPrice") with
    | ok q2 =>
      rw [gas_price_computes t q2 (Or.inl hv) hp] at h
      injection h with h2
      subst h2
      exact ⟨rfl, rfl⟩
    | error e =>
      rw [gas_price_fails t e (Or.inl hv) hp] at h
      cases h
  | some q0 =>
    by_cases h0 : q0 = 0
    · subst h0
      cases hp : pyFloat (lookupField t._data "gasPrice") with
      | ok q2 =>
        rw [gas_price_computes t q2 (Or.inr hv) hp] at h
        injection h with h2
        subst h2
        exact ⟨rfl, rfl⟩
      | error e =>
        rw [gas_price_fails t e (Or.inr hv) hp] at h
        cases h
    · rw [gas_price_cached_truthy t q0 hv h0] at h
      injection h with h2
      subst h2
      exact ⟨rfl, hv⟩

theorem raw_block_data_key (fetchB : Int → Json) (blk : Block) :
    (Block._raw_block_data fetchB blk).2.1.block_number = blk.block_number := by
  cases hd : blk._block_reward_data with
  | none => simp [Block._raw_block_data, Block._retrieve_block_reward_data, hd]
  | some d =>
    by_cases ht : truthyJson d <;>
      simp [Block._raw_block_data, Block._retrieve_block_reward_data, hd, ht]

theorem block_reward_key (fetchB : Int → Json) (blk : Block)
    (r : ℚ × Block × Bool) (h : Block.block_reward fetchB blk = .ok r) :
    r.2.1.block_number = blk.block_number := by
  have hretr : ∀ p : ℚ × Block,
      Block._retrieve_block_reward fetchB blk = .ok p →
      p.2.block_number = blk.block_number := by
    intro p hp
    simp only [Block._retrieve_block_reward] at hp
    cases hf : pyFloat (jsonGet (Block._raw_block_data fetchB blk).1
        "blockReward") with
    | ok q2 =>
      rw [hf] at hp
      injection hp with h2
      subst h2
      exact raw_block_data_key fetchB blk
    | error e =>
      rw [hf] at hp
      cases hp
  cases hv : blk._block_reward with
  | none =>
    simp only [Block.block_reward, hv] at h
    cases hb : Block._retrieve_block_reward fetchB blk with
    | ok p =>
      rw [hb] at h
      injection h with h2
      subst h2
      exact hretr p hb
    | error e =>
      rw [hb] at h
      cases h
  | some q0 =>
    by_cases h0 : q0 = 0
    · subst h0
      simp only [Block.block_reward, hv, if_pos rfl] at h
      cases hb : Block._retrieve_block_reward fetchB blk with
      | ok p =>
        rw [hb] at h
        injection h with h2
        subst h2
        exact hretr p hb
      | error e =>
        rw [hb] at h
        cases h
    · simp only [Block.block_reward, hv, if_neg h0] at h
      injection h with h2
      subst h2
      rfl

/-- C8: across the four entity kinds, every accessor leaves the
identifying key untouched; a cached truthy value is returned without
recomputation; a computed value is stored, so a later access of a
truthy value is served from the cache — except that a falsy computed
value (0, or an empty rewards dict) triggers recomputation on every
subsequent access. -/
theorem C8_lazy_caching (t : Transaction) (a : Address) (tk : Token)
    (blk : Block) (fetch fetchS : String → ℚ) (fetchB : Int → Json) :
    (∀ r, Transaction.value t = .ok r →
      r.2.1._data = t._data ∧ r.2.1._value = some r.1)
    ∧ (∀ r, Transaction.gas_price t = .ok r →
      r.2.1._data = t._data ∧ r.2.1._gas_price = some r.1)
    ∧ (∀ q, t._value = some q → q ≠ 0 →
      Transaction.value t = .ok (q, t, false))
    ∧ (∀ r, Transaction.value t = .ok r → r.1 ≠ 0 →
      Transaction.value r.2.1 = .ok (r.1, r.2.1, false))
    ∧ (∀ r, Transaction.value t = .ok r → r.2.2 = true → r.1 = 0 →
      ∃ r2, Transaction.value r.2.1 = .ok r2 ∧ r2.2.2 = true)
    ∧ ((Address.balance fetch a).2.1.address = a.address)
    ∧ (∀ q, a._balance = some q → q ≠ 0 →
      Address.balance fetch a = (q, a, false))
    ∧ (a._balance = none → Address.balance fetch a
        = (fetch a.address, { a with _balance := some (fetch a.address) },
           true))
    ∧ (a._balance = some 0 → (Address.balance fetch a).2.2 = true)
    ∧ ((Token.supply fetchS tk).2.1.contract_address = tk.contract_address)
    ∧ (∀ q, tk._supply = some q → q ≠ 0 →
      Token.supply fetchS tk = (q, tk, false))
    ∧ ((Block._raw_block_data fetchB blk).2.1.block_number = blk.block_number)
    ∧ (∀ r, Block.block_reward fetchB blk = .ok r →
      r.2.1.block_number = blk.block_number)
    ∧ (∀ d, blk._block_reward_data = some d → truthyJson d = true →
      Block._raw_block_data fetchB blk = (d, blk, false))
    ∧ (blk._block_reward_data = some (.obj []) →
      (Block._raw_block_data fetchB blk).2.2 = true) := by
  refine ⟨fun r h => ⟨(value_state t r h).1, (value_state t r h).2.1⟩,
    gas_price_state t, value_cached_truthy t, ?_, ?_, ?_, ?_, ?_, ?_, ?_, ?_,
    raw_block_data_key fetchB blk, block_reward_key fetchB blk, ?_, ?_⟩
  · intro r h hne
    exact value_cached_truthy r.2.1 r.1 (value_state t r h).2.1 hne
  · intro r h hb h0
    have hs := value_state t r h
    have hp : pyFloat (lookupField r.2.1._data "value") = .ok 0 := by
      rw [hs.1, ← h0]
      exact hs.2.2 hb
    have hv2 : r.2.1._value = some 0 := by rw [hs.2.1, h0]
    exact ⟨(0, { r.2.1 with _value := some 0 }, true),
      value_computes r.2.1 0 (Or.inr hv2) hp, rfl⟩
  · cases hv : a._balance with
    | none => simp [Address.balance, Address._retrieve_balance, hv]
    | some q =>
      by_cases h0 : q = 0 <;>
        simp [Address.balance, Address._retrieve_balance, hv, h0]
  · intro q hv hq
    simp [Address.balance, hv, hq]
  · intro hv
    simp [Address.balance, Address._retrieve_balance, hv]
  · intro hv
    simp [Address.balance, Address._retrieve_balance, hv]
  · cases hv : tk._supply with
    | none => simp [Token.supply, Token._retrieve_supply, hv]
    | some q =>
      by_cases h0 : q = 0 <;>
        simp [Token.supply, Token._retrieve_supply, hv, h0]
  · intro q hv hq
    simp [Token.supply, hv, hq]
  · intro d hd ht
    simp [Block._raw_block_data, hd, ht]
  · intro hd
    simp [Block._raw_block_data, Block._retrieve_block_reward_data, hd,
      truthyJson]

/-- C8 witness: a transaction with a truthy cached value of 5 returns it
without recomputation, and an address with a cached zero balance
recomputes on access. -/
theorem C8_lazy_caching_witness :
    Transaction.value sampleCachedTx = .ok (5, sampleCachedTx, false)
    ∧ (Address.balance (fun _ => 0) sampleZeroBalanceAddr).2.2 = true := by
  have h := C8_lazy_caching sampleCachedTx sampleZeroBalanceAddr
    (Token.initTk "0xc") (Block.initB 1) (fun _ => 0) (fun _ => 0)
    (fun _ => Json.null)
  exact ⟨h.2.2.1 5 rfl (by norm_num), h.2.2.2.2.2.2.2.2.1 rfl⟩

/-- C9 (defect evidence): on a fresh address the first access of
`transactions` returns a container wrapping `None` — the retrieval
helper stores the merge but returns nothing — while the state then
caches exactly the normal list followed by the internal list in fetched
order, so a second access (when the merge is non-empty) returns that
merge: every normal entry precedes every internal entry, unreordered. -/
theorem C9_transactions_first_access (a0 : Address)
    (fetchN fetchI : String → List Json) (h : a0._transactions = none) :
    (Address.transactions fetchN fetchI a0).1.transaction_list = none
    ∧ ((Address.transactions fetchN fetchI a0).2)._transactions
        = some (fetchN a0.address ++ fetchI a0.address)
    ∧ (fetchN a0.address ++ fetchI a0.address ≠ [] →
      (Address.transactions fetchN fetchI
        ((Address.transactions fetchN fetchI a0).2)).1.transaction_list
        = some (fetchN a0.address ++ fetchI a0.address)) := by
  have h1 : Address.transactions fetchN fetchI a0
      = ({ transaction_list := none },
         { a0 with
            _transactions := some (fetchN a0.address ++ fetchI a0.address) }) := by
    simp [Address.transactions, Address._raw_transactions,
      Address._retrieve_transactions_for_address, h]
  refine ⟨by rw [h1], by rw [h1], ?_⟩
  intro hne
  rw [h1]
  simp [Address.transactions, Address._raw_transactions, hne]

/-- C9 witness: with two normal and one internal fetched record, the
first access yields a container over `None` and the second access the
three records with the normal ones first. -/
theorem C9_transactions_first_access_witness :
    (Address.transactions (fun _ => [Json.str "n1", Json.str "n2"])
        (fun _ => [Json.str "i1"]) (Address.initA "0xa")).1.transaction_list
      = none
    ∧ (Address.transactions (fun _ => [Json.str "n1", Json.str "n2"])
        (fun _ => [Json.str "i1"])
        ((Address.transactions (fun _ => [Json.str "n1", Json.str "n2"])
          (fun _ => [Json.str "i1"])
          (Address.initA "0xa")).2)).1.transaction_list
      = some [Json.str "n1", Json.str "n2", Json.str "i1"] := by
  have h := C9_transactions_first_access (Address.initA "0xa")
    (fun _ => [Json.str "n1", Json.str "n2"]) (fun _ => [Json.str "i1"]) rfl
  refine ⟨h.1, ?_⟩
  have h2 := h.2.2 (by simp)
  simpa using h2

end Pyetherscan
